import Mathlib

/-!
Shallow embedding of `src/uploader.py` (viralbox uploader bot).

The pure core modelled here:
  * `generate_mapping_id`  — random alphanumeric id generator (randomness is
    supplied as an index oracle `pick : Nat → Nat`, one draw per character,
    reduced modulo the alphabet size exactly as `random.choices` indexes it);
  * `shorten_url`          — the single outbound HTTP GET to the shortener,
    with the HTTP layer abstracted as a `respond` oracle mapping the issued
    request (URL and timeout) to an outcome (`exc` models any raised
    exception: network error, timeout, malformed/non-JSON body);
  * `set_api_handler`      — the /set_api command handler; its MongoDB
    `update_one(..., upsert=True)` call is `update_first`, and the Boolean
    `upd_ok` says whether that call raises (the Python code has no
    try/except here, so a raise is modelled as `Except.error`);
  * `upload_media`         — the media handler: credential lookup, archive
    copy, mapping insert, worker-link construction, shortening, link insert,
    reply.  Each fallible effect's outcome comes from an `Env` record.

MongoDB collections are Lean lists of documents; `insert_one` appends
unconditionally (the Python code creates no unique index on `mapping`),
`find_one` returns the first match, `update_one` updates the first match or
appends when no document matches (upsert).
-/

/-- Configuration drawn from environment variables used by the pipeline:
`WORKER_DOMAIN` and `VIRALBOX_DOMAIN`. -/
structure Config where
  worker_domain : String
  viralbox_domain : String
deriving DecidableEq, Repr

/-- A document of the `user_apis` collection.  The `apiKey` field is optional
because `upload_media` re-checks `"apiKey" in user_api` after `find_one`. -/
structure UserApiDoc where
  userId : Int
  apiKey : Option String
deriving DecidableEq, Repr

/-- A document of the `mappings` collection: `{"mapping": ..., "message_id": ...}`. -/
structure MappingDoc where
  mapping : String
  message_id : Nat
deriving DecidableEq, Repr

/-- A document of the `links` collection: `{"longURL": ..., "shortURL": ...}`. -/
structure LinkDoc where
  longURL : String
  shortURL : String
deriving DecidableEq, Repr

/-- The persistent state: the three MongoDB collections. -/
structure DB where
  user_apis : List UserApiDoc
  mappings : List MappingDoc
  links : List LinkDoc
deriving DecidableEq, Repr

/-- One message sent back to the user: its text and, when the code passes
`reply_to_message_id`, the id of the message being replied to. -/
structure Reply where
  text : String
  reply_to : Option Nat
deriving DecidableEq, Repr

/-- An outbound HTTP request issued by `shorten_url`: `requests.get(api_url, timeout=10)`. -/
structure HttpRequest where
  url : String
  timeout : Nat
deriving DecidableEq, Repr

/-- Outcome of the HTTP GET inside `shorten_url`.  `exc` models any raised
exception (connection error, timeout, non-JSON body); `body s u` models a
JSON object whose optional `status` field is `s` and optional `shortenedUrl`
field is `u`. -/
inductive ShortenResp where
  | exc : ShortenResp
  | body : Option String → Option String → ShortenResp
deriving DecidableEq, Repr

/-- Outcome of one handler invocation: the new database state, the replies
sent to the user, and the HTTP requests issued to the shortener. -/
structure HandlerResult where
  db : DB
  replies : List Reply
  requests : List HttpRequest
deriving DecidableEq, Repr

/-- Effect outcomes for one `upload_media` invocation: `copy_result` is
`some message_id` if the archive copy succeeds and `none` if it raises;
`pick` drives the random generator; the two Booleans say whether the two
`insert_one` calls succeed; `respond` answers the shortener HTTP request. -/
structure Env where
  copy_result : Option Nat
  pick : Nat → Nat
  mappings_insert_ok : Bool
  links_insert_ok : Bool
  respond : HttpRequest → ShortenResp

/-- `string.ascii_letters + string.digits`: the 62-symbol alphabet. -/
def mapping_chars : List Char :=
  "abcdefghijklmnopqrstuvwxyzABCDEFGHIJKLMNOPQRSTUVWXYZ0123456789".toList

/-- `generate_mapping_id(length=6)`: `''.join(random.choices(chars, k=length))`.
Each of the `length` draws is an oracle-chosen index into `mapping_chars`,
reduced modulo the alphabet size. -/
def generate_mapping_id (pick : Nat → Nat) (length : Nat := 6) : String :=
  String.mk ((List.range length).map fun i =>
    mapping_chars.getD (pick i % mapping_chars.length) 'a')

/-- The URL built by `shorten_url`:
`f"https://{VIRALBOX_DOMAIN}/api?api={api_key}&url={long_url}"`, issued with
`timeout=10`. -/
def shorten_request (viralbox_domain api_key long_url : String) : HttpRequest :=
  ⟨"https://" ++ viralbox_domain ++ "/api?api=" ++ api_key ++ "&url=" ++ long_url, 10⟩

/-- `shorten_url(api_key, long_url)`: one GET; on `status == "success"` return
`data.get("shortenedUrl", "")`, otherwise `""`; any exception also yields `""`.
Returns the result string together with the list of requests issued. -/
def shorten_url (respond : HttpRequest → ShortenResp) (viralbox_domain api_key long_url : String) :
    String × List HttpRequest :=
  let req := shorten_request viralbox_domain api_key long_url
  match respond req with
  | ShortenResp.exc => ("", [req])
  | ShortenResp.body status su =>
      if status = some "success" then (su.getD "", [req]) else ("", [req])

/-- `user_apis_col.find_one({"userId": uid})`: first matching document. -/
def find_one_user (docs : List UserApiDoc) (uid : Int) : Option UserApiDoc :=
  docs.find? fun d => d.userId == uid

/-- `user_apis_col.update_one({"userId": uid}, {"$set": {...}}, upsert=True)`:
replace the fields of the first matching document, or append a fresh document
when none matches. -/
def update_first (docs : List UserApiDoc) (uid : Int) (key : String) : List UserApiDoc :=
  match docs with
  | [] => [⟨uid, some key⟩]
  | d :: rest =>
      if d.userId == uid then ⟨uid, some key⟩ :: rest
      else d :: update_first rest uid key

def usage_reply (cfg : Config) : Reply :=
  ⟨"❌ Usage: /set_api <API_KEY>\n\nGet your API key from: https://" ++
      cfg.viralbox_domain ++ "/member/tools/api", none⟩

def api_saved_reply : Reply :=
  ⟨"✅ API Key saved successfully!\n\n📂 Now send any media to upload!", none⟩

def missing_key_reply (cfg : Config) : Reply :=
  ⟨"⚠️ Please set your API key first!\n\n👉 Get it from: https://" ++
      cfg.viralbox_domain ++ "/member/tools/api\n👉 Then send: /set_api <API_KEY>", none⟩

def upload_failed_reply (mid : Nat) : Reply :=
  ⟨"❌ Upload failed! Please try again later.", some mid⟩

def shorten_failed_reply (mid : Nat) : Reply :=
  ⟨"❌ URL shortening failed!\nPlease check your API key.", some mid⟩

/-- `set_api_handler`: missing argument replies with usage; otherwise the
upsert runs with no surrounding try/except, so when it raises (`upd_ok =
false`) the exception leaves the handler (`Except.error`). -/
def set_api_handler (cfg : Config) (upd_ok : Bool) (db : DB) (uid : Int)
    (args : List String) : Except Unit HandlerResult :=
  match args with
  | [] => Except.ok ⟨db, [usage_reply cfg], []⟩
  | key :: _ =>
      if upd_ok then
        Except.ok ⟨⟨update_first db.user_apis uid key, db.mappings, db.links⟩,
          [api_saved_reply], []⟩
      else Except.error ()

/-- `upload_media`: credential lookup, then the try-block — archive copy,
`generate_mapping_id`, `mappings_col.insert_one`, worker link, `shorten_url`,
`links_col.insert_one`, reply.  Every exception inside the try-block is
caught and turned into the generic failure reply. -/
def upload_media (cfg : Config) (env : Env) (db : DB) (uid : Int) (mid : Nat) :
    HandlerResult :=
  match find_one_user db.user_apis uid with
  | none => ⟨db, [missing_key_reply cfg], []⟩
  | some user_api =>
      match user_api.apiKey with
      | none => ⟨db, [missing_key_reply cfg], []⟩
      | some api_key =>
          match env.copy_result with
          | none => ⟨db, [upload_failed_reply mid], []⟩
          | some stored_msg_id =>
              let mapping_id := generate_mapping_id env.pick
              if env.mappings_insert_ok then
                let db1 : DB :=
                  ⟨db.user_apis, db.mappings ++ [⟨mapping_id, stored_msg_id⟩], db.links⟩
                let worker_link := cfg.worker_domain ++ "/" ++ mapping_id
                let res := shorten_url env.respond cfg.viralbox_domain api_key worker_link
                if res.1 = "" then
                  ⟨db1, [shorten_failed_reply mid], res.2⟩
                else if env.links_insert_ok then
                  ⟨⟨db1.user_apis, db1.mappings, db1.links ++ [⟨worker_link, res.1⟩]⟩,
                    [⟨res.1, some mid⟩], res.2⟩
                else ⟨db1, [upload_failed_reply mid], res.2⟩
              else ⟨db, [upload_failed_reply mid], []⟩

/-- A sequence of successful credential-set writes, applied in order. -/
def apply_sets (docs : List UserApiDoc) (ops : List (Int × String)) : List UserApiDoc :=
  ops.foldl (fun d op => update_first d op.1 op.2) docs

/-- Oracle making `generate_mapping_id` return `"abc123"`
(indices 0, 1, 2 are `a`, `b`, `c`; 53, 54, 55 are `1`, `2`, `3`). -/
def pickabc : Nat → Nat := fun i => [0, 1, 2, 53, 54, 55].getD i 0

def cfg0 : Config := ⟨"worker.example.com", "viralbox.in"⟩

/-- A store whose user 1 has credential "KEY". -/
def db_key : DB := ⟨[⟨1, some "KEY"⟩], [], []⟩

/-- A store with no credentials at all. -/
def db_empty : DB := ⟨[], [], []⟩

/-- A store that already holds a mapping record with id "abc123". -/
def db_dup : DB := ⟨[⟨1, some "KEY"⟩], [⟨"abc123", 5⟩], []⟩

/-- Archive succeeds (message id 7), generator draws "abc123", both inserts
succeed, shortener replies with a successful JSON body. -/
def env_ok : Env :=
  ⟨some 7, pickabc, true, true,
    fun _ => ShortenResp.body (some "success") (some "https://viralbox.in/xyz")⟩

/-- Archive succeeds, but the shortening GET raises (timeout / network error). -/
def env_exc : Env := ⟨some 7, pickabc, true, true, fun _ => ShortenResp.exc⟩

/-- The archive copy raises. -/
def env_nocopy : Env := ⟨none, pickabc, true, true, fun _ => ShortenResp.exc⟩

/-- Shortener replies `status: success` but with an empty `shortenedUrl`. -/
def env_emptyurl : Env :=
  ⟨some 7, pickabc, true, true, fun _ => ShortenResp.body (some "success") (some "")⟩

/-! ### Helper lemmas -/

lemma mapping_chars_getD_mem (n : Nat) : mapping_chars.getD n 'a' ∈ mapping_chars := by
  rcases h : mapping_chars[n]? with _ | c
  · simp [List.getD_eq_getElem?_getD, h]; decide
  · have hc : c ∈ mapping_chars := by
      obtain ⟨hlt, rfl⟩ := List.getElem?_eq_some_iff.mp h
      exact List.getElem_mem hlt
    simp [List.getD_eq_getElem?_getD, h, hc]

lemma mapping_chars_alphanum : ∀ c ∈ mapping_chars, c.isAlphanum = true := by decide

lemma generate_length (pick : Nat → Nat) (n : Nat) :
    (generate_mapping_id pick n).length = n := by
  simp [generate_mapping_id, String.length]

lemma generate_mem (pick : Nat → Nat) (n : Nat) :
    ∀ c ∈ (generate_mapping_id pick n).toList, c ∈ mapping_chars := by
  intro c hc
  simp only [generate_mapping_id, String.toList, String.mk, List.mem_map] at hc
  obtain ⟨i, _, rfl⟩ := hc
  exact mapping_chars_getD_mem _

lemma shorten_requests_single (respond : HttpRequest → ShortenResp)
    (dom k l : String) :
    (shorten_url respond dom k l).2 = [shorten_request dom k l] := by
  unfold shorten_url
  rcases h : respond (shorten_request dom k l) with _ | ⟨status, su⟩
  · simp [h]
  · by_cases hs : status = some "success" <;> simp [h, hs]

lemma shorten_result_empty (respond : HttpRequest → ShortenResp) (dom k l : String)
    (hfail : ∀ u, respond (shorten_request dom k l) =
      ShortenResp.body (some "success") (some u) → u = "") :
    (shorten_url respond dom k l).1 = "" := by
  unfold shorten_url
  rcases h : respond (shorten_request dom k l) with _ | ⟨status, su⟩
  · simp [h]
  · by_cases hs : status = some "success"
    · subst hs
      rcases su with _ | u
      · simp [h]
      · simp [h, hfail u h]
    · simp [h, hs]

lemma find_update_self (docs : List UserApiDoc) (uid : Int) (k : String) :
    find_one_user (update_first docs uid k) uid = some ⟨uid, some k⟩ := by
  induction docs with
  | nil => simp [update_first, find_one_user, List.find?]
  | cons d rest ih =>
      by_cases h : d.userId = uid
      · simp [update_first, h, find_one_user, List.find?]
      · have hb : (d.userId == uid) = false := beq_eq_false_iff_ne.mpr h
        simp only [update_first, hb, if_false]
        simpa [find_one_user, List.find?, hb] using ih

lemma find_update_other (docs : List UserApiDoc) (uid uid' : Int) (k : String)
    (h : uid' ≠ uid) :
    find_one_user (update_first docs uid' k) uid = find_one_user docs uid := by
  induction docs with
  | nil =>
      simp [update_first, find_one_user, List.find?, beq_eq_false_iff_ne.mpr h]
  | cons d rest ih =>
      by_cases hd : d.userId = uid'
      · have hne : (d.userId == uid) = false := by
          exact beq_eq_false_iff_ne.mpr (hd ▸ h)
        simp [update_first, hd, find_one_user, List.find?, hne,
          beq_eq_false_iff_ne.mpr h]
      · have hb : (d.userId == uid') = false := beq_eq_false_iff_ne.mpr hd
        simp only [update_first, hb, if_false]
        by_cases hdu : d.userId = uid
        · simp [find_one_user, List.find?, hdu]
        · have hbu : (d.userId == uid) = false := beq_eq_false_iff_ne.mpr hdu
          simpa [find_one_user, List.find?, hbu] using ih

lemma update_first_idem (docs : List UserApiDoc) (uid : Int) (k : String) :
    update_first (update_first docs uid k) uid k = update_first docs uid k := by
  induction docs with
  | nil => simp [update_first]
  | cons d rest ih =>
      by_cases h : d.userId = uid
      · simp [update_first, h]
      · have hb : (d.userId == uid) = false := beq_eq_false_iff_ne.mpr h
        simp [update_first, hb, ih]

lemma apply_sets_untouched (docs : List UserApiDoc) (ops : List (Int × String))
    (uid : Int) (hops : ∀ p ∈ ops, p.1 ≠ uid) :
    find_one_user (apply_sets docs ops) uid = find_one_user docs uid := by
  induction ops generalizing docs with
  | nil => rfl
  | cons p ps ih =>
      have hp : p.1 ≠ uid := hops p (List.mem_cons_self p ps)
      have hps : ∀ q ∈ ps, q.1 ≠ uid := fun q hq => hops q (List.mem_cons_of_mem p hq)
      calc find_one_user (apply_sets docs (p :: ps)) uid
          = find_one_user (apply_sets (update_first docs p.1 p.2) ps) uid := rfl
        _ = find_one_user (update_first docs p.1 p.2) uid := ih _ hps
        _ = find_one_user docs uid := find_update_other docs uid p.1 p.2 hp

lemma apply_sets_last (docs : List UserApiDoc) (pre post : List (Int × String))
    (uid : Int) (k : String) (hpost : ∀ p ∈ post, p.1 ≠ uid) :
    find_one_user (apply_sets docs (pre ++ (uid, k) :: post)) uid = some ⟨uid, some k⟩ := by
  have h1 : apply_sets docs (pre ++ (uid, k) :: post) =
      apply_sets (update_first (apply_sets docs pre) uid k) post := by
    simp [apply_sets, List.foldl_append]
  rw [h1, apply_sets_untouched _ _ _ hpost, find_update_self]

/-! ### Claim theorems -/

/-- C7: every call to the mapping id generator with the default length returns
a string of exactly 6 characters, each drawn from the 62-symbol alphanumeric
alphabet (ASCII letters upper and lower case, and digits). -/
theorem generate_default_alphanumeric (pick : Nat → Nat) :
    (generate_mapping_id pick).length = 6 ∧
    mapping_chars.length = 62 ∧
    ∀ c ∈ (generate_mapping_id pick).toList, c ∈ mapping_chars ∧ c.isAlphanum = true :=
  ⟨generate_length pick 6, by decide,
   fun c hc => ⟨generate_mem pick 6 c hc, mapping_chars_alphanum c (generate_mem pick 6 c hc)⟩⟩

/-- Witness for C7 at the concrete oracle `pickabc`. -/
theorem generate_default_alphanumeric_witness :
    (generate_mapping_id pickabc).length = 6 ∧
    ('a' ∈ (generate_mapping_id pickabc).toList ∧
      'a' ∈ mapping_chars ∧ Char.isAlphanum 'a' = true) :=
  ⟨(generate_default_alphanumeric pickabc).1,
   by decide,
   (generate_default_alphanumeric pickabc).2.2 'a' (by decide)⟩

/-- C5: the shortening client issues exactly one GET request, to
`https://{dom}/api?api={apiKey}&url={longURL}` with a 10-second timeout; it
returns the shortened URL exactly when the JSON body has `status` equal to
`"success"` and carries a `shortenedUrl` field, and folds every other outcome
(exception — covering timeout, network error, malformed body — non-success
status, or missing field) into the single failure result `""`. -/
theorem shorten_url_contract (respond : HttpRequest → ShortenResp)
    (dom api_key long_url : String) :
    (shorten_url respond dom api_key long_url).2 = [shorten_request dom api_key long_url] ∧
    (shorten_request dom api_key long_url).url =
      "https://" ++ dom ++ "/api?api=" ++ api_key ++ "&url=" ++ long_url ∧
    (shorten_request dom api_key long_url).timeout = 10 ∧
    (∀ u, respond (shorten_request dom api_key long_url) =
        ShortenResp.body (some "success") (some u) →
      (shorten_url respond dom api_key long_url).1 = u) ∧
    (respond (shorten_request dom api_key long_url) = ShortenResp.exc →
      (shorten_url respond dom api_key long_url).1 = "") ∧
    (∀ status su, status ≠ some "success" →
      respond (shorten_request dom api_key long_url) = ShortenResp.body status su →
      (shorten_url respond dom api_key long_url).1 = "") ∧
    (respond (shorten_request dom api_key long_url) = ShortenResp.body (some "success") none →
      (shorten_url respond dom api_key long_url).1 = "") := by
  refine ⟨shorten_requests_single respond dom api_key long_url, rfl, rfl, ?_, ?_, ?_, ?_⟩
  · intro u h; unfold shorten_url; simp [h]
  · intro h; unfold shorten_url; simp [h]
  · intro status su hs h; unfold shorten_url; simp [h, hs]
  · intro h; unfold shorten_url; simp [h]

/-- Witness for C5: a concrete successful response is passed through. -/
theorem shorten_url_contract_witness :
    (shorten_url (fun _ => ShortenResp.body (some "success") (some "https://viralbox.in/abc123"))
      "viralbox.in" "K" "L").1 = "https://viralbox.in/abc123" :=
  (shorten_url_contract
    (fun _ => ShortenResp.body (some "success") (some "https://viralbox.in/abc123"))
    "viralbox.in" "K" "L").2.2.2.1 "https://viralbox.in/abc123" rfl

/-- C1 (code evaluation at the failing input): starting from a store that
already holds a mapping record with id "abc123", an upload whose generator
draws "abc123" again inserts a second record with the same mapping id — no
duplicate condition is surfaced, no fresh id is drawn, and the pipeline
continues to the shortening step as if nothing happened. -/
theorem duplicate_mapping_id_not_rejected :
    (upload_media cfg0 env_exc db_dup 1 2).db.mappings =
      [⟨"abc123", 5⟩, ⟨"abc123", 7⟩] ∧
    ((upload_media cfg0 env_exc db_dup 1 2).db.mappings.filter
      (fun m => m.mapping == "abc123")).length = 2 ∧
    (upload_media cfg0 env_exc db_dup 1 2).replies = [shorten_failed_reply 2] := by
  refine ⟨?_, ?_, ?_⟩ <;> rfl

/-- C4: with no stored credential (no document, or a document without an
`apiKey` field), the upload handler replies only with the set-your-API-key
instruction: the store is unchanged and no shortening request is issued. -/
theorem upload_no_credential_no_effects (cfg : Config) (env : Env) (db : DB)
    (uid : Int) (mid : Nat)
    (hmiss : find_one_user db.user_apis uid = none ∨
      ∃ d, find_one_user db.user_apis uid = some d ∧ d.apiKey = none) :
    upload_media cfg env db uid mid = ⟨db, [missing_key_reply cfg], []⟩ := by
  rcases hmiss with h | ⟨d, h, hk⟩
  · unfold upload_media; simp [h]
  · unfold upload_media; simp [h, hk]

/-- Witness for C4: user 3 has no credential in the empty store. -/
theorem upload_no_credential_no_effects_witness :
    upload_media cfg0 env_ok db_empty 3 9 = ⟨db_empty, [missing_key_reply cfg0], []⟩ :=
  upload_no_credential_no_effects cfg0 env_ok db_empty 3 9 (Or.inl rfl)

/-- C2: on the full success path the reply is exactly the shortened URL,
addressed as a reply to the inbound message; the mapping record pairs the
generated 6-character id with the archived message id; and the link record
pairs `{workerDomain}/{mappingId}` with the shortened URL. -/
theorem upload_success_path (cfg : Config) (env : Env) (db : DB) (uid : Int)
    (mid : Nat) (d : UserApiDoc) (api_key : String) (sid : Nat) (short_u : String)
    (hfind : find_one_user db.user_apis uid = some d)
    (hkey : d.apiKey = some api_key)
    (harch : env.copy_result = some sid)
    (hins : env.mappings_insert_ok = true)
    (hlinks : env.links_insert_ok = true)
    (hresp : env.respond (shorten_request cfg.viralbox_domain api_key
        (cfg.worker_domain ++ "/" ++ generate_mapping_id env.pick)) =
      ShortenResp.body (some "success") (some short_u))
    (hne : short_u ≠ "") :
    upload_media cfg env db uid mid =
      ⟨⟨db.user_apis,
        db.mappings ++ [⟨generate_mapping_id env.pick, sid⟩],
        db.links ++ [⟨cfg.worker_domain ++ "/" ++ generate_mapping_id env.pick, short_u⟩]⟩,
        [⟨short_u, some mid⟩],
        [shorten_request cfg.viralbox_domain api_key
          (cfg.worker_domain ++ "/" ++ generate_mapping_id env.pick)]⟩ ∧
    (generate_mapping_id env.pick).length = 6 := by
  have hsr : shorten_url env.respond cfg.viralbox_domain api_key
      (cfg.worker_domain ++ "/" ++ generate_mapping_id env.pick) =
      (short_u, [shorten_request cfg.viralbox_domain api_key
        (cfg.worker_domain ++ "/" ++ generate_mapping_id env.pick)]) := by
    unfold shorten_url; simp [hresp]
  refine ⟨?_, generate_length env.pick 6⟩
  unfold upload_media
  simp [hfind, hkey, harch, hins, hlinks, hsr, hne]

/-- Witness for C2 at the concrete success environment. -/
theorem upload_success_path_witness :
    upload_media cfg0 env_ok db_key 1 2 =
      ⟨⟨db_key.user_apis,
        db_key.mappings ++ [⟨generate_mapping_id env_ok.pick, 7⟩],
        db_key.links ++ [⟨cfg0.worker_domain ++ "/" ++ generate_mapping_id env_ok.pick,
          "https://viralbox.in/xyz"⟩]⟩,
        [⟨"https://viralbox.in/xyz", some 2⟩],
        [shorten_request cfg0.viralbox_domain "KEY"
          (cfg0.worker_domain ++ "/" ++ generate_mapping_id env_ok.pick)]⟩ ∧
    (generate_mapping_id env_ok.pick).length = 6 :=
  upload_success_path cfg0 env_ok db_key 1 2 ⟨1, some "KEY"⟩ "KEY" 7
    "https://viralbox.in/xyz" rfl rfl rfl rfl rfl rfl (by decide)

/-- Shared lemma: whenever the shortening outcome folds to the empty string,
the upload ends with the shortening-failure reply, the mapping record kept,
and no link record. -/
lemma upload_media_shorten_empty (cfg : Config) (env : Env) (db : DB) (uid : Int)
    (mid : Nat) (d : UserApiDoc) (api_key : String) (sid : Nat)
    (hfind : find_one_user db.user_apis uid = some d)
    (hkey : d.apiKey = some api_key)
    (harch : env.copy_result = some sid)
    (hins : env.mappings_insert_ok = true)
    (hfail : ∀ u, env.respond (shorten_request cfg.viralbox_domain api_key
        (cfg.worker_domain ++ "/" ++ generate_mapping_id env.pick)) =
      ShortenResp.body (some "success") (some u) → u = "") :
    upload_media cfg env db uid mid =
      ⟨⟨db.user_apis, db.mappings ++ [⟨generate_mapping_id env.pick, sid⟩], db.links⟩,
        [shorten_failed_reply mid],
        [shorten_request cfg.viralbox_domain api_key
          (cfg.worker_domain ++ "/" ++ generate_mapping_id env.pick)]⟩ := by
  have h1 := shorten_result_empty env.respond cfg.viralbox_domain api_key
    (cfg.worker_domain ++ "/" ++ generate_mapping_id env.pick) hfail
  have h2 := shorten_requests_single env.respond cfg.viralbox_domain api_key
    (cfg.worker_domain ++ "/" ++ generate_mapping_id env.pick)
  unfold upload_media
  simp [hfind, hkey, harch, hins, h1, h2]

/-- C3: if archive and mapping insert succeed but the shortening call fails
(any outcome that does not carry a successful `shortenedUrl`), the reply
indicates failure, the mapping record still exists, and no link record is
created. -/
theorem upload_shorten_failure_keeps_mapping (cfg : Config) (env : Env) (db : DB)
    (uid : Int) (mid : Nat) (d : UserApiDoc) (api_key : String) (sid : Nat)
    (hfind : find_one_user db.user_apis uid = some d)
    (hkey : d.apiKey = some api_key)
    (harch : env.copy_result = some sid)
    (hins : env.mappings_insert_ok = true)
    (hfail : ∀ u, env.respond (shorten_request cfg.viralbox_domain api_key
        (cfg.worker_domain ++ "/" ++ generate_mapping_id env.pick)) =
      ShortenResp.body (some "success") (some u) → u = "") :
    upload_media cfg env db uid mid =
      ⟨⟨db.user_apis, db.mappings ++ [⟨generate_mapping_id env.pick, sid⟩], db.links⟩,
        [shorten_failed_reply mid],
        [shorten_request cfg.viralbox_domain api_key
          (cfg.worker_domain ++ "/" ++ generate_mapping_id env.pick)]⟩ :=
  upload_media_shorten_empty cfg env db uid mid d api_key sid hfind hkey harch hins hfail

/-- Witness for C3: the shortening GET raises (e.g. timeout). -/
theorem upload_shorten_failure_keeps_mapping_witness :
    upload_media cfg0 env_exc db_key 1 2 =
      ⟨⟨db_key.user_apis, db_key.mappings ++ [⟨generate_mapping_id env_exc.pick, 7⟩],
        db_key.links⟩,
        [shorten_failed_reply 2],
        [shorten_request cfg0.viralbox_domain "KEY"
          (cfg0.worker_domain ++ "/" ++ generate_mapping_id env_exc.pick)]⟩ :=
  upload_shorten_failure_keeps_mapping cfg0 env_exc db_key 1 2 ⟨1, some "KEY"⟩ "KEY" 7
    rfl rfl rfl rfl (fun _ h => ShortenResp.noConfusion h)

/-- C10 (implicit): a `status: success` response whose `shortenedUrl` is
absent or empty is treated exactly like a shortening failure — failure reply,
no link record, mapping kept. -/
theorem upload_success_empty_url_is_failure (cfg : Config) (env : Env) (db : DB)
    (uid : Int) (mid : Nat) (d : UserApiDoc) (api_key : String) (sid : Nat)
    (u_opt : Option String)
    (hfind : find_one_user db.user_apis uid = some d)
    (hkey : d.apiKey = some api_key)
    (harch : env.copy_result = some sid)
    (hins : env.mappings_insert_ok = true)
    (hresp : env.respond (shorten_request cfg.viralbox_domain api_key
        (cfg.worker_domain ++ "/" ++ generate_mapping_id env.pick)) =
      ShortenResp.body (some "success") u_opt)
    (hu : u_opt = none ∨ u_opt = some "") :
    upload_media cfg env db uid mid =
      ⟨⟨db.user_apis, db.mappings ++ [⟨generate_mapping_id env.pick, sid⟩], db.links⟩,
        [shorten_failed_reply mid],
        [shorten_request cfg.viralbox_domain api_key
          (cfg.worker_domain ++ "/" ++ generate_mapping_id env.pick)]⟩ := by
  refine upload_media_shorten_empty cfg env db uid mid d api_key sid hfind hkey harch hins ?_
  intro u h
  have hcomb := hresp.symm.trans h
  rcases hu with rfl | rfl
  · injection hcomb with h1 h2; exact Option.noConfusion h2
  · injection hcomb with h1 h2; exact (Option.some.inj h2).symm

/-- Witness for C10: success status with an empty `shortenedUrl`. -/
theorem upload_success_empty_url_is_failure_witness :
    upload_media cfg0 env_emptyurl db_key 1 2 =
      ⟨⟨db_key.user_apis, db_key.mappings ++ [⟨generate_mapping_id env_emptyurl.pick, 7⟩],
        db_key.links⟩,
        [shorten_failed_reply 2],
        [shorten_request cfg0.viralbox_domain "KEY"
          (cfg0.worker_domain ++ "/" ++ generate_mapping_id env_emptyurl.pick)]⟩ :=
  upload_success_empty_url_is_failure cfg0 env_emptyurl db_key 1 2 ⟨1, some "KEY"⟩ "KEY" 7
    (some "") rfl rfl rfl rfl rfl (Or.inr rfl)

/-- C9: within an upload attempt the mapping record is created exactly once,
immediately after a successful archive copy and before the shortening call:
if any shortening request was issued the mapping was already persisted; a
failed archive leaves the mappings untouched and issues no request; and in
every case the mappings either stay unchanged or gain exactly one record
holding the archived message id. -/
theorem mapping_persisted_before_shorten (cfg : Config) (env : Env) (db : DB)
    (uid : Int) (mid : Nat) :
    ((upload_media cfg env db uid mid).requests ≠ [] →
      ∃ sid, env.copy_result = some sid ∧
        (upload_media cfg env db uid mid).db.mappings =
          db.mappings ++ [⟨generate_mapping_id env.pick, sid⟩]) ∧
    (env.copy_result = none →
      (upload_media cfg env db uid mid).db.mappings = db.mappings ∧
      (upload_media cfg env db uid mid).requests = []) ∧
    ((upload_media cfg env db uid mid).db.mappings = db.mappings ∨
      ∃ sid, env.copy_result = some sid ∧
        (upload_media cfg env db uid mid).db.mappings =
          db.mappings ++ [⟨generate_mapping_id env.pick, sid⟩]) := by
  rcases hfind : find_one_user db.user_apis uid with _ | d
  · unfold upload_media; simp [hfind]
  rcases hkey : d.apiKey with _ | api_key
  · unfold upload_media; simp [hfind, hkey]
  rcases harch : env.copy_result with _ | sid
  · unfold upload_media; simp [hfind, hkey, harch]
  cases hins : env.mappings_insert_ok
  · unfold upload_media; simp [hfind, hkey, harch, hins]
  · have h2 := shorten_requests_single env.respond cfg.viralbox_domain api_key
      (cfg.worker_domain ++ "/" ++ generate_mapping_id env.pick)
    cases hl : env.links_insert_ok <;>
      by_cases hempty : (shorten_url env.respond cfg.viralbox_domain api_key
        (cfg.worker_domain ++ "/" ++ generate_mapping_id env.pick)).1 = "" <;>
      · unfold upload_media
        simp [hfind, hkey, harch, hins, hl, hempty, h2]

/-- Witness for C9: when the archive copy raises, no mapping is persisted and
no shortening request is issued. -/
theorem mapping_persisted_before_shorten_witness :
    (upload_media cfg0 env_nocopy db_key 1 2).db.mappings = db_key.mappings ∧
    (upload_media cfg0 env_nocopy db_key 1 2).requests = [] :=
  (mapping_persisted_before_shorten cfg0 env_nocopy db_key 1 2).2.1 rfl

/-- C8: the /set_api handler performs an idempotent last-write-wins upsert
keyed by userId with no validation of the key: after any sequence of set
calls whose last write for a user carries key `k`, a lookup for that user
returns `k`; re-setting the same key is idempotent; and setting a credential
for a different user leaves the lookup unchanged. -/
theorem credential_upsert_last_write_wins (cfg : Config) (db : DB)
    (docs : List UserApiDoc) (pre post : List (Int × String)) (uid uid2 : Int)
    (k k2 : String) (rest : List String)
    (hpost : ∀ p ∈ post, p.1 ≠ uid) (hne : uid2 ≠ uid) :
    set_api_handler cfg true db uid (k :: rest) =
      Except.ok ⟨⟨update_first db.user_apis uid k, db.mappings, db.links⟩,
        [api_saved_reply], []⟩ ∧
    find_one_user (apply_sets docs (pre ++ (uid, k) :: post)) uid = some ⟨uid, some k⟩ ∧
    update_first (update_first docs uid k) uid k = update_first docs uid k ∧
    find_one_user (update_first docs uid2 k2) uid = find_one_user docs uid :=
  ⟨rfl, apply_sets_last docs pre post uid k hpost,
   update_first_idem docs uid k,
   find_update_other docs uid uid2 k2 hne⟩

/-- Witness for C8 at a concrete overwrite sequence. -/
theorem credential_upsert_last_write_wins_witness :
    set_api_handler cfg0 true db_empty 1 ["new"] =
      Except.ok ⟨⟨update_first db_empty.user_apis 1 "new", db_empty.mappings,
        db_empty.links⟩, [api_saved_reply], []⟩ ∧
    find_one_user (apply_sets [] ([(1, "old")] ++ (1, "new") :: [(2, "other")])) 1 =
      some ⟨1, some "new"⟩ ∧
    update_first (update_first [] 1 "new") 1 "new" = update_first [] 1 "new" ∧
    find_one_user (update_first [] 2 "other") 1 = find_one_user [] 1 :=
  credential_upsert_last_write_wins cfg0 db_empty [] [(1, "old")] [(2, "other")] 1 2
    "new" "other" [] (by decide) (by decide)

/-- C6 counterexample: a credential-set event whose store upsert raises ends
with the exception escaping `set_api_handler` (`Except.error ()`), with no
user-facing reply — so not every failure during an inbound event's handling
is caught at the handler boundary. -/
theorem set_api_persistence_failure_uncaught :
    set_api_handler cfg0 false db_key 1 ["NEWKEY"] = Except.error () := rfl

/-- C6 (amended): every upload attempt ends with exactly one user-facing
reply — all modelled failures inside `upload_media`'s try-block (archive
copy, mapping insert, shortening, link insert) are caught — and the
credential-set handler replies on its usage and success paths; but a
persistence failure during the credential upsert propagates out of
`set_api_handler` uncaught, producing no reply. -/
theorem handler_failure_boundary (cfg : Config) (env : Env) (db db2 : DB)
    (uid uid2 : Int) (mid : Nat) (k : String) (rest : List String) (b : Bool) :
    (upload_media cfg env db uid mid).replies.length = 1 ∧
    set_api_handler cfg b db2 uid2 [] = Except.ok ⟨db2, [usage_reply cfg], []⟩ ∧
    set_api_handler cfg true db2 uid2 (k :: rest) =
      Except.ok ⟨⟨update_first db2.user_apis uid2 k, db2.mappings, db2.links⟩,
        [api_saved_reply], []⟩ ∧
    set_api_handler cfg false db2 uid2 (k :: rest) = Except.error () := by
  refine ⟨?_, rfl, rfl, rfl⟩
  rcases hfind : find_one_user db.user_apis uid with _ | d
  · unfold upload_media; simp [hfind]
  rcases hkey : d.apiKey with _ | api_key
  · unfold upload_media; simp [hfind, hkey]
  rcases harch : env.copy_result with _ | sid
  · unfold upload_media; simp [hfind, hkey, harch]
  cases hins : env.mappings_insert_ok
  · unfold upload_media; simp [hfind, hkey, harch, hins]
  · cases hl : env.links_insert_ok <;>
      by_cases hempty : (shorten_url env.respond cfg.viralbox_domain api_key
        (cfg.worker_domain ++ "/" ++ generate_mapping_id env.pick)).1 = "" <;>
      · unfold upload_media
        simp [hfind, hkey, harch, hins, hl, hempty]
